import Mathlib

/-!
Verification of the Automated Assessment core (app.py).

The program joins a nomination table against an inventory table on the
column "PLA ID" (Task 3, app.py lines 152-166) and then normalizes five
numeric columns and appends two verdict columns, "Node Assessment" and
"Loop Assessment" (Task 4, app.py lines 187-210).

Embedding choices:
* A pandas cell value is a string, a number, or NaN/missing.  Python
  floats are modelled as exact rationals; every numeric literal of the
  program (1, 2, 0.7, 100) is exactly representable, so the threshold
  comparisons of the assessment rules are preserved.
* A row (pandas Series) is an association list from column label to
  value; a data frame is a list of rows.  A column label absent from a
  row plays the role of a NaN cell of that column.
* Column-level pandas operations (elementwise transforms, assignment of
  a computed column) are modelled row-wise; this is sound because every
  such operation of the program is elementwise.  The single genuinely
  column-level step, the dtype test of the loop-utilization column, is
  modelled by first computing the whole column.
* Fallible steps (KeyError on a missing nomination key, ValueError from
  astype(float) on an unparseable string) make the modelled operation
  return none, matching the program, where the surrounding
  try/except aborts the whole task with no output.
-/

namespace AutomatedAssessment

/-- A cell value: a string, a number (Python float, modelled exactly as a
rational), or NaN / missing. -/
inductive Val where
  | vstr (s : String)
  | vnum (q : ℚ)
  | vnan
deriving DecidableEq

/-- A row (pandas Series): association list from column label to value.
Lookup finds the first binding of a label. -/
abbrev Row : Type := List (String × Val)

/-- Look a column up in a row; none when the label is absent. -/
def getField : Row → String → Option Val
  | [], _ => none
  | (k, v) :: r, key => if k = key then some v else getField r key

/-- Assign a column of a row: replace the first binding of the label,
or append a new binding at the end (a fresh pandas column is appended). -/
def setField : Row → String → Val → Row
  | [], k, v => [(k, v)]
  | (k', v') :: r, k, v => if k' = k then (k, v) :: r else (k', v') :: setField r k v

/-- Rational addition in a form the kernel can evaluate (the library's
addition is marked irreducible); qadd_eq below proves it is addition. -/
def qadd (a b : ℚ) : ℚ :=
  mkRat (a.num * b.den + b.num * a.den) (a.den * b.den)

/-- Rational subtraction in a kernel-evaluable form; qsub_eq below
proves it is subtraction. -/
def qsub (a b : ℚ) : ℚ :=
  mkRat (a.num * b.den - b.num * a.den) (a.den * b.den)

/-- Rational division in a kernel-evaluable form (0 for a zero divisor,
as in the library); qdiv_eq below proves it is division. -/
def qdiv (a b : ℚ) : ℚ :=
  Rat.divInt (a.num * b.den) (a.den * b.num)

/-- Python / pandas elementwise equality as used in
`df_inventory['PLA ID'] == pla_id` (app.py line 156): values of different
types compare unequal, NaN compares unequal to everything. -/
def pandasEq : Val → Val → Bool
  | Val.vstr s, Val.vstr t => s = t
  | Val.vnum a, Val.vnum b => a = b
  | _, _ => false

/-- `selected_inventory_row.add_prefix('Inv_')` (app.py line 163): rename
every field of the selected inventory row by prepending "Inv_". -/
def prefixed (r : Row) : Row :=
  r.map (fun kv => ("Inv_" ++ kv.1, kv.2))

/-- `df_inventory[df_inventory['PLA ID'] == pla_id]` (app.py line 156):
all inventory rows whose "PLA ID" cell equals the nomination key, in
inventory order. -/
def invMatches (inv : List Row) (plaId : Val) : List Row :=
  inv.filter (fun r =>
    match getField r "PLA ID" with
    | some v => pandasEq v plaId
    | none => false)

/-- One iteration of the Task 3 loop (app.py lines 154-164): read the
nomination row's "PLA ID" (KeyError, hence none, when absent), collect
the matching inventory rows, select `matches.iloc[0]` when non-empty and
an empty Series otherwise, and concatenate the nomination row with the
"Inv_"-prefixed selected row. -/
def joinRow (inv : List Row) (nomRow : Row) : Option Row :=
  match getField nomRow "PLA ID" with
  | none => none
  | some plaId => some (nomRow ++ prefixed ((invMatches inv plaId).headD []))

/-- Map a fallible step over a list, failing as a whole when any element
fails (the program's for-loop aborts the task at the first exception). -/
def mapOpt (f : α → Option β) : List α → Option (List β)
  | [] => some []
  | a :: as =>
    match f a, mapOpt f as with
    | some b, some bs => some (b :: bs)
    | _, _ => none

/-- The whole Task 3 loop (app.py lines 152-166): one combined row per
nomination row, in nomination order. -/
def joinNomination (inv : List Row) (nom : List Row) : Option (List Row) :=
  mapOpt (joinRow inv) nom

/-! ### Task 4: numeric normalization (app.py lines 189-197) -/

/-- The label of the loop-utilization column. -/
def loopCol : String := "Inv_MYCOM LOOP NORMAL UTILIZATION"

/-- The designated numeric columns (app.py line 189), in program order. -/
def numeric_cols : List String :=
  ["GE Port Demand", "10GE Port Demand", "Inv_GE_1G", "Inv_GE_10G", loopCol]

/-- Strip leading and trailing whitespace (Python float() ignores it). -/
def trimWs (cs : List Char) : List Char :=
  ((cs.dropWhile Char.isWhitespace).reverse.dropWhile Char.isWhitespace).reverse

/-- Value of a digit string, most significant first. -/
def digitsToNat (cs : List Char) : ℕ :=
  cs.foldl (fun acc c => acc * 10 + (c.toNat - 48)) 0

/-- Python float parsing of a string, on the plain decimal grammar
(optional sign, digits, at most one point, surrounding whitespace);
none models the ValueError Python raises on anything else.  The
exponent/inf/nan forms of the full grammar have no exact rational
meaning and do not occur in the data this program handles. -/
def parseFloat? (s : String) : Option ℚ :=
  let cs := trimWs s.toList
  let neg : Bool := match cs with | '-' :: _ => true | _ => false
  let cs2 : List Char :=
    match cs with
    | '-' :: rest => rest
    | '+' :: rest => rest
    | _ => cs
  let ip := cs2.takeWhile (fun c => c ≠ '.')
  let fp := (cs2.dropWhile (fun c => c ≠ '.')).drop 1
  if ip.all Char.isDigit && fp.all Char.isDigit && (!ip.isEmpty || !fp.isEmpty) then
    let mag : ℚ := qadd (digitsToNat ip : ℚ) (qdiv (digitsToNat fp : ℚ) ((10 ^ fp.length : ℕ) : ℚ))
    some (if neg then -mag else mag)
  else none

/-- `.str.replace('%', '', regex=False)` on one cell: remove every '%'
character of a string. -/
def stripPct (s : String) : String :=
  String.mk (s.toList.filter (fun c => c ≠ '%'))

/-- One cell of
`col.str.replace('%','',regex=False).astype(float) / 100` (app.py line
195): a string has its '%' stripped, is parsed as a float (ValueError,
hence none, when unparseable) and is divided by 100; a non-string cell
becomes NaN under the .str accessor and stays NaN. -/
def pctTransform : Val → Option Val
  | Val.vstr s =>
    match parseFloat? (stripPct s) with
    | some q => some (Val.vnum (qdiv q 100))
    | none => none
  | _ => some Val.vnan

/-- One cell of `pd.to_numeric(col, errors='coerce')` (app.py line 197):
numbers pass through, parseable strings are parsed, anything else
coerces to NaN. -/
def to_numeric_coerce : Val → Val
  | Val.vnum q => Val.vnum q
  | Val.vstr s =>
    match parseFloat? s with
    | some q => Val.vnum q
    | none => Val.vnan
  | Val.vnan => Val.vnan

/-- One cell of `.fillna(0)` (app.py line 197). -/
def fillna0 : Val → Val
  | Val.vnan => Val.vnum 0
  | v => v

/-- A pandas column read from heterogeneous data has object dtype
exactly when it holds at least one string (a purely numeric / NaN
column is a float column).  Used for the test on app.py line 194. -/
def isObjectDtype (col : List Val) : Bool :=
  col.any (fun v => match v with | Val.vstr _ => true | _ => false)

/-- Extract a column of the frame; a label absent from a row is that
row's NaN cell of the column. -/
def getCol (df : List Row) (k : String) : List Val :=
  df.map (fun r => (getField r k).getD Val.vnan)

/-- One row of the loop-utilization normalization (app.py lines
194-195): when the column has object dtype, the cell goes through
pctTransform (failure aborts the task); otherwise the row is untouched. -/
def normalizeLoopRow (obj : Bool) (r : Row) : Option Row :=
  if obj then
    match pctTransform ((getField r loopCol).getD Val.vnan) with
    | some v => some (setField r loopCol v)
    | none => none
  else some r

/-- One column step of the `for col in numeric_cols` loop (app.py lines
196-197) on one row. -/
def normStep (r : Row) (c : String) : Row :=
  setField r c (fillna0 (to_numeric_coerce ((getField r c).getD Val.vnan)))

/-- The whole `for col in numeric_cols` loop on one row. -/
def normNumRow (r : Row) : Row :=
  numeric_cols.foldl normStep r

/-! ### Task 4: assessment rules (app.py lines 199-210) -/

/-- The `failures` list of get_node_assessment (app.py lines 200-202):
the 1G check appends "Requires Port Augmentation" when 1G demand is at
least 1 and 1G capacity minus 1G demand is at most 2; the 10G check is
the same shape on the 10G pair. -/
def failures (geD ge1g tenD ge10g : ℚ) : List String :=
  (if 1 ≤ geD ∧ qsub ge1g geD ≤ 2 then ["Requires Port Augmentation"] else []) ++
  (if 1 ≤ tenD ∧ qsub ge10g tenD ≤ 2 then ["Requires Port Augmentation"] else [])

/-- Python's `" & ".join` on a list of strings. -/
def joinSep (sep : String) : List String → String
  | [] => ""
  | [s] => s
  | s :: t :: rest => s ++ sep ++ joinSep sep (t :: rest)

/-- get_node_assessment (app.py lines 199-204) as a function of the four
normalized numeric fields it reads. -/
def get_node_assessment (geD ge1g tenD ge10g : ℚ) : String :=
  let fs := failures geD ge1g tenD ge10g
  if fs.isEmpty then
    if 1 ≤ geD ∨ 1 ≤ tenD then "With Headroom" else "No Port Demand"
  else joinSep " & " fs

/-- get_loop_assessment (app.py lines 206-207).  The Python literal 0.7
is modelled as the exact rational 7/10; the comparison outcomes agree
with the float comparison at every value the program produces. -/
def get_loop_assessment (u : ℚ) : String :=
  if mkRat 7 10 ≤ u then "Requires Loop Upgrade" else "With Headroom"

/-- Read a normalized numeric cell of a row as a number.  After the
normalization pass every designated cell is a number; the 0 default for
the other shapes is never reached on normalized rows. -/
def qOf (r : Row) (k : String) : ℚ :=
  match getField r k with
  | some (Val.vnum q) => q
  | _ => 0

/-- get_node_assessment applied to a row, reading the four columns the
program reads (app.py lines 201-203). -/
def nodeAssessmentRow (r : Row) : String :=
  get_node_assessment (qOf r "GE Port Demand") (qOf r "Inv_GE_1G")
    (qOf r "10GE Port Demand") (qOf r "Inv_GE_10G")

/-- get_loop_assessment applied to a row (app.py line 207). -/
def loopAssessmentRow (r : Row) : String :=
  get_loop_assessment (qOf r loopCol)

/-- `df['Node Assessment'] = df.apply(get_node_assessment, axis=1)` and
`df['Loop Assessment'] = df.apply(get_loop_assessment, axis=1)` (app.py
lines 209-210) on one row: the two verdict columns are appended, the
node verdict first. -/
def addAssessments (r : Row) : Row :=
  let r1 := setField r "Node Assessment" (Val.vstr (nodeAssessmentRow r))
  setField r1 "Loop Assessment" (Val.vstr (loopAssessmentRow r1))

/-- The whole Task 4 assessment (app.py lines 187-210) on the stored
Step 3 table: check that the five designated columns exist, normalize
the loop-utilization column when it is textual (an unparseable cell
aborts the task), coerce the five designated columns to numbers with
NaN filled by 0, and append the two verdict columns.  The program runs
on `.copy()` of the stored table, so the input frame is not changed. -/
def run_assessment (df : List Row) : Option (List Row) :=
  if numeric_cols.all (fun c => df.any (fun r => (getField r c).isSome)) then
    match mapOpt (normalizeLoopRow (isObjectDtype (getCol df loopCol))) df with
    | none => none
    | some df1 => some ((df1.map normNumRow).map addAssessments)
  else none

/-! ### Concrete fixtures used by the theorems below -/

/-- Inventory row with PLA ID "100" and Transport NE "A". -/
def invA : Row := [("PLA ID", Val.vstr "100"), ("Transport NE", Val.vstr "A")]

/-- Inventory row with PLA ID "100" and Transport NE "B". -/
def invB : Row := [("PLA ID", Val.vstr "100"), ("Transport NE", Val.vstr "B")]

/-- Nomination row with PLA ID "100". -/
def nomR : Row := [("PLA ID", Val.vstr "100")]

/-- Nomination row whose PLA ID is the number 123. -/
def nomNum : Row := [("PLA ID", Val.vnum 123)]

/-- Inventory whose single row carries the string key "123". -/
def invStr : List Row := [[("PLA ID", Val.vstr "123"), ("Transport NE", Val.vstr "X")]]

/-- A one-row nomination table with a present PLA ID column. -/
def nomW : List Row := [[("PLA ID", Val.vstr "7")]]

/-- A normalized combined row with 25G capacity 5 and a failing 1G pair:
1G demand 100 against 1G capacity 0 (the spec's 25G-override example). -/
def rowCE : Row :=
  [("GE Port Demand", Val.vnum 100), ("Inv_GE_1G", Val.vnum 0),
   ("10GE Port Demand", Val.vnum 0), ("Inv_GE_10G", Val.vnum 0),
   ("Inv_25GE", Val.vnum 5)]

/-- The four non-loop designated columns, all zero. -/
def baseCols : Row :=
  [("GE Port Demand", Val.vnum 0), ("10GE Port Demand", Val.vnum 0),
   ("Inv_GE_1G", Val.vnum 0), ("Inv_GE_10G", Val.vnum 0)]

/-- One-row frame whose loop-utilization cell is the string "70%". -/
def df70 : List Row := [baseCols ++ [(loopCol, Val.vstr "70%")]]

/-- One-row frame whose loop-utilization cell is the unparseable string "abc". -/
def dfBad : List Row := [baseCols ++ [(loopCol, Val.vstr "abc")]]

/-- One-row frame whose loop-utilization cell is already the number 1/2. -/
def dfNum : List Row := [baseCols ++ [(loopCol, Val.vnum (mkRat 1 2))]]

/-- One-row frame whose 1G-demand cell is the unparseable string "junk". -/
def dfJunk : List Row :=
  [[("GE Port Demand", Val.vstr "junk"), ("10GE Port Demand", Val.vnum 0),
    ("Inv_GE_1G", Val.vnum 0), ("Inv_GE_10G", Val.vnum 0), (loopCol, Val.vnum 0)]]

/-- Two-row frame whose loop column mixes a percentage string with a number. -/
def dfMix : List Row :=
  [baseCols ++ [(loopCol, Val.vstr "70%")], baseCols ++ [(loopCol, Val.vnum (mkRat 1 2))]]

/-- One-row frame with all designated columns numeric plus passthrough columns. -/
def dfW : List Row :=
  [[("PLA ID", Val.vstr "1"), ("GE Port Demand", Val.vnum 1),
    ("10GE Port Demand", Val.vnum 0), ("Inv_GE_1G", Val.vnum 10),
    ("Inv_GE_10G", Val.vnum 0), (loopCol, Val.vnum (mkRat 1 2)),
    ("Extra", Val.vstr "x")]]

/-! ### Helper lemmas -/

theorem getField_setField_self (r : Row) (k : String) (v : Val) :
    getField (setField r k v) k = some v := by
  induction r with
  | nil => simp [setField, getField]
  | cons kv rest ih =>
    obtain ⟨k', v'⟩ := kv
    by_cases h : k' = k
    · simp [setField, h, getField]
    · simp [setField, h, getField, ih]

theorem getField_setField_ne (r : Row) (k k' : String) (v : Val) (h : k' ≠ k) :
    getField (setField r k v) k' = getField r k' := by
  induction r with
  | nil => simp [setField, getField, Ne.symm h]
  | cons kv rest ih =>
    obtain ⟨k0, v0⟩ := kv
    by_cases h0 : k0 = k
    · subst h0
      simp [setField, getField, Ne.symm h]
    · simp [setField, h0, getField, ih]

theorem qOf_setField_ne (r : Row) (k k' : String) (v : Val) (h : k' ≠ k) :
    qOf (setField r k v) k' = qOf r k' := by
  unfold qOf
  rw [getField_setField_ne r k k' v h]

theorem mapOpt_some_getD {α β : Type} (f : α → Option β) (d : α) (e : β) :
    ∀ (xs : List α) (ys : List β), mapOpt f xs = some ys →
      ys.length = xs.length ∧ ∀ i, i < xs.length → some (ys.getD i e) = f (xs.getD i d) := by
  intro xs
  induction xs with
  | nil =>
    intro ys h
    simp [mapOpt] at h
    subst h
    exact ⟨rfl, fun i hi => absurd hi (by simp)⟩
  | cons a as ih =>
    intro ys h
    cases hfa : f a with
    | none => rw [mapOpt, hfa] at h; exact absurd h (by simp)
    | some b =>
      cases hrec : mapOpt f as with
      | none => rw [mapOpt, hfa, hrec] at h; exact absurd h (by simp)
      | some bs =>
        rw [mapOpt, hfa, hrec] at h
        obtain rfl : b :: bs = ys := by injection h
        obtain ⟨hlen, hget⟩ := ih bs hrec
        refine ⟨by simp [hlen], ?_⟩
        intro i hi
        cases i with
        | zero => simpa using hfa.symm
        | succ j =>
          simp only [List.getD_cons_succ]
          exact hget j (by simpa using hi)

theorem mapOpt_isSome {α β : Type} (f : α → Option β) (xs : List α)
    (h : ∀ x ∈ xs, (f x).isSome) : (mapOpt f xs).isSome := by
  induction xs with
  | nil => rfl
  | cons a as ih =>
    obtain ⟨b, hb⟩ := Option.isSome_iff_exists.mp (h a (List.mem_cons_self a as))
    obtain ⟨bs, hbs⟩ :=
      Option.isSome_iff_exists.mp (ih (fun x hx => h x (List.mem_cons_of_mem a hx)))
    simp [mapOpt, hb, hbs]

theorem getD_mem_of_lt {α : Type} (l : List α) (i : ℕ) (d : α) (hi : i < l.length) :
    l.getD i d ∈ l := by
  induction l generalizing i with
  | nil => simp at hi
  | cons a as ih =>
    cases i with
    | zero => simp
    | succ j =>
      simp only [List.getD_cons_succ]
      exact List.mem_cons_of_mem a (ih j (by simpa using hi))

theorem getD_map_lt {α β : Type} (f : α → β) (l : List α) (i : ℕ) (d : α) (e : β)
    (hi : i < l.length) : (l.map f).getD i e = f (l.getD i d) := by
  induction l generalizing i with
  | nil => simp at hi
  | cons a as ih =>
    cases i with
    | zero => rfl
    | succ j =>
      simp only [List.map_cons, List.getD_cons_succ]
      exact ih j (by simpa using hi)

theorem qadd_eq (a b : ℚ) : qadd a b = a + b := by
  have ha : (a.den : ℚ) ≠ 0 := Nat.cast_ne_zero.mpr a.den_nz
  have hb : (b.den : ℚ) ≠ 0 := Nat.cast_ne_zero.mpr b.den_nz
  rw [qadd, Rat.mkRat_eq_divInt, Rat.divInt_eq_div]
  conv_rhs => rw [← Rat.num_div_den a, ← Rat.num_div_den b]
  push_cast
  field_simp

theorem qsub_eq (a b : ℚ) : qsub a b = a - b := by
  have ha : (a.den : ℚ) ≠ 0 := Nat.cast_ne_zero.mpr a.den_nz
  have hb : (b.den : ℚ) ≠ 0 := Nat.cast_ne_zero.mpr b.den_nz
  rw [qsub, Rat.mkRat_eq_divInt, Rat.divInt_eq_div]
  conv_rhs => rw [← Rat.num_div_den a, ← Rat.num_div_den b]
  push_cast
  field_simp
  ring

theorem qdiv_eq (a b : ℚ) : qdiv a b = a / b := by
  rcases eq_or_ne b 0 with hb | hb
  · subst hb
    rw [qdiv, show ((0 : ℚ).num) = 0 from rfl, mul_zero, Rat.divInt_zero, div_zero]
  · have ha : (a.den : ℚ) ≠ 0 := Nat.cast_ne_zero.mpr a.den_nz
    have hbd : (b.den : ℚ) ≠ 0 := Nat.cast_ne_zero.mpr b.den_nz
    have hbn : (b.num : ℚ) ≠ 0 := by
      exact_mod_cast Rat.num_ne_zero.mpr hb
    rw [qdiv, Rat.divInt_eq_div]
    conv_rhs => rw [← Rat.num_div_den a, ← Rat.num_div_den b]
    push_cast
    field_simp

theorem mkRat_seven_tenths : (7 / 10 : ℚ) = mkRat 7 10 := by
  rw [Rat.mkRat_eq_divInt, Rat.divInt_eq_div]
  norm_num

theorem foldl_normStep_frame (cols : List String) (r : Row) (k : String) (h : k ∉ cols) :
    getField (cols.foldl normStep r) k = getField r k := by
  induction cols generalizing r with
  | nil => rfl
  | cons c cs ih =>
    rw [List.foldl_cons]
    have hk : k ≠ c := fun e => h (e ▸ List.mem_cons_self c cs)
    rw [ih (normStep r c) (fun hm => h (List.mem_cons_of_mem c hm))]
    exact getField_setField_ne r c k _ hk

theorem normalizeLoopRow_frame (obj : Bool) (r r1 : Row)
    (h : normalizeLoopRow obj r = some r1) (k : String) (hk : k ≠ loopCol) :
    getField r1 k = getField r k := by
  cases obj with
  | false =>
    simp [normalizeLoopRow] at h
    rw [← h]
  | true =>
    cases hp : pctTransform ((getField r loopCol).getD Val.vnan) with
    | none => simp [normalizeLoopRow, hp] at h
    | some v =>
      simp [normalizeLoopRow, hp] at h
      rw [← h]
      exact getField_setField_ne r loopCol k v hk

theorem addAssessments_frame (r : Row) (k : String)
    (h1 : k ≠ "Node Assessment") (h2 : k ≠ "Loop Assessment") :
    getField (addAssessments r) k = getField r k := by
  unfold addAssessments
  rw [getField_setField_ne _ _ _ _ h2, getField_setField_ne _ _ _ _ h1]

theorem addAssessments_has_node (r : Row) :
    (getField (addAssessments r) "Node Assessment").isSome := by
  unfold addAssessments
  rw [getField_setField_ne _ _ _ _ (by decide : ("Node Assessment" : String) ≠ "Loop Assessment"),
    getField_setField_self]
  rfl

theorem addAssessments_has_loop (r : Row) :
    (getField (addAssessments r) "Loop Assessment").isSome := by
  unfold addAssessments
  rw [getField_setField_self]
  rfl

/-- Case analysis of get_node_assessment: closed form of the verdict in
terms of the two check conditions, stated with ordinary subtraction. -/
theorem get_node_assessment_cases (geD ge1g tenD ge10g : ℚ) :
    get_node_assessment geD ge1g tenD ge10g =
      if 1 ≤ geD ∧ ge1g - geD ≤ 2 then
        if 1 ≤ tenD ∧ ge10g - tenD ≤ 2 then
          "Requires Port Augmentation & Requires Port Augmentation"
        else "Requires Port Augmentation"
      else if 1 ≤ tenD ∧ ge10g - tenD ≤ 2 then "Requires Port Augmentation"
      else if 1 ≤ geD ∨ 1 ≤ tenD then "With Headroom" else "No Port Demand" := by
  have e1 : (1 ≤ geD ∧ qsub ge1g geD ≤ 2) = (1 ≤ geD ∧ ge1g - geD ≤ 2) := by
    rw [qsub_eq]
  have e2 : (1 ≤ tenD ∧ qsub ge10g tenD ≤ 2) = (1 ≤ tenD ∧ ge10g - tenD ≤ 2) := by
    rw [qsub_eq]
  by_cases h1 : 1 ≤ geD ∧ ge1g - geD ≤ 2 <;> by_cases h2 : 1 ≤ tenD ∧ ge10g - tenD ≤ 2
  · simp only [get_node_assessment, failures, e1, e2, if_pos h1, if_pos h2]
    rfl
  · simp only [get_node_assessment, failures, e1, e2, if_pos h1, if_neg h2]
    rfl
  · simp only [get_node_assessment, failures, e1, e2, if_neg h1, if_pos h2]
    rfl
  · simp only [get_node_assessment, failures, e1, e2, if_neg h1, if_neg h2]
    rfl

/-! ### Claims -/

/-- C1 (counterexample): at the spec's 25G-override input — 25G capacity
5, 1G demand 100 against 1G capacity 0, no 10G demand — the node verdict
is "Requires Port Augmentation", not the claimed "With Headroom": the
program has no 25G override. -/
theorem node_assessment_25G_override_fails :
    nodeAssessmentRow rowCE = "Requires Port Augmentation" ∧
    nodeAssessmentRow rowCE ≠ "With Headroom" ∧
    getField rowCE "Inv_25GE" = some (Val.vnum 5) := by
  refine ⟨rfl, ?_, rfl⟩
  decide

/-- C1 (amended): get_node_assessment never reads the 25G capacity
field — the verdict is unchanged under any rewrite of the "Inv_25GE"
cell, and at the spec's override example (25G capacity 5, 1G demand 100,
1G capacity 0) it is "Requires Port Augmentation", not "With Headroom". -/
theorem node_assessment_independent_of_25G :
    (∀ (r : Row) (a b : Val),
      nodeAssessmentRow (setField r "Inv_25GE" a) =
        nodeAssessmentRow (setField r "Inv_25GE" b)) ∧
    nodeAssessmentRow rowCE = "Requires Port Augmentation" := by
  constructor
  · intro r a b
    unfold nodeAssessmentRow
    rw [qOf_setField_ne r _ _ a (by decide), qOf_setField_ne r _ _ a (by decide),
      qOf_setField_ne r _ _ a (by decide), qOf_setField_ne r _ _ a (by decide),
      qOf_setField_ne r _ _ b (by decide), qOf_setField_ne r _ _ b (by decide),
      qOf_setField_ne r _ _ b (by decide), qOf_setField_ne r _ _ b (by decide)]
  · rfl

/-- C3 (counterexample): at 1G demand 1 and 1G capacity 3 — positive
demand with exactly 2 spare ports — the program flags
"Requires Port Augmentation", while the claim's strict "< 2" boundary
would leave the record unflagged with verdict "With Headroom". -/
theorem augmentation_spare_two_flagged :
    get_node_assessment 1 3 0 0 = "Requires Port Augmentation" ∧
    get_node_assessment 1 3 0 0 ≠ "With Headroom" ∧
    ¬((3 : ℚ) - 1 < 2) := by
  refine ⟨rfl, ?_, by norm_num⟩
  decide

/-- C3 (amended): the 1G augmentation check fires iff 1G demand is at
least 1 and 1G capacity minus 1G demand is at most 2 (so a record with
positive demand and exactly 2 spare ports IS flagged), the 10G check has
the same shape, and the verdict differs from "With Headroom" and
"No Port Demand" exactly when one of the two checks fires. -/
theorem augmentation_boundary_le_two :
    (∀ geD ge1g tenD ge10g : ℚ,
      (get_node_assessment geD ge1g tenD ge10g ≠ "With Headroom" ∧
       get_node_assessment geD ge1g tenD ge10g ≠ "No Port Demand") ↔
      ((1 ≤ geD ∧ ge1g - geD ≤ 2) ∨ (1 ≤ tenD ∧ ge10g - tenD ≤ 2))) ∧
    get_node_assessment 1 3 0 0 = "Requires Port Augmentation" := by
  refine ⟨?_, rfl⟩
  intro geD ge1g tenD ge10g
  rw [get_node_assessment_cases]
  by_cases h1 : 1 ≤ geD ∧ ge1g - geD ≤ 2 <;>
    by_cases h2 : 1 ≤ tenD ∧ ge10g - tenD ≤ 2
  · simp only [if_pos h1, if_pos h2]
    exact iff_of_true (by decide) (Or.inl h1)
  · simp only [if_pos h1, if_neg h2]
    exact iff_of_true (by decide) (Or.inl h1)
  · simp only [if_neg h1, if_pos h2]
    exact iff_of_true (by decide) (Or.inr h2)
  · simp only [if_neg h1, if_neg h2]
    refine iff_of_false ?_ (fun hc => hc.elim h1 h2)
    by_cases hd : 1 ≤ geD ∨ 1 ≤ tenD
    · simp only [if_pos hd]
      exact fun hc => hc.1 rfl
    · simp only [if_neg hd]
      exact fun hc => hc.2 rfl

/-- C5 (counterexample): a nomination key that is the number 123 finds
no match in an inventory whose key is the string "123": the joined row
is the bare nomination row, with no "Inv_"-prefixed field at all. -/
theorem plaid_string_number_mismatch :
    joinRow invStr nomNum = some nomNum ∧
    getField ((joinRow invStr nomNum).getD []) "Inv_Transport NE" = none ∧
    invMatches invStr (Val.vnum 123) = [] := by
  exact ⟨rfl, rfl, rfl⟩

/-- C5 (amended): the join compares PLA ID cells with typed pandas
equality, not as normalized strings: a string key and a numeric key are
never equal, so the numeric nomination key 123 collects no match against
the inventory key "123". -/
theorem plaid_typed_equality :
    (∀ (s : String) (q : ℚ),
      pandasEq (Val.vstr s) (Val.vnum q) = false ∧
      pandasEq (Val.vnum q) (Val.vstr s) = false) ∧
    joinRow invStr nomNum = some nomNum := by
  exact ⟨fun s q => ⟨rfl, rfl⟩, rfl⟩

/-- C7: with a nomination key present and at least one inventory match,
the Task 3 loop selects the first match in the inventory's native order
and concatenates its "Inv_"-prefixed fields after the nomination row. -/
theorem default_first_match (inv : List Row) (nomRow : Row) (plaId : Val)
    (m : Row) (ms : List Row)
    (hpla : getField nomRow "PLA ID" = some plaId)
    (hm : invMatches inv plaId = m :: ms) :
    joinRow inv nomRow = some (nomRow ++ prefixed m) := by
  simp [joinRow, hpla, hm]

/-- C7 (witness): two inventory rows share PLA ID "100", Transport NE
"A" first and "B" second; with no disambiguation input the joined row's
inventory fields are those of "A". -/
theorem default_first_match_witness :
    joinRow [invA, invB] nomR = some (nomR ++ prefixed invA) ∧
    getField (nomR ++ prefixed invA) "Inv_Transport NE" = some (Val.vstr "A") :=
  ⟨default_first_match [invA, invB] nomR (Val.vstr "100") invA [invB] rfl rfl, rfl⟩

/-- C9: when both the 1G and the 10G check fire, the node verdict is the
identical flag text joined with " & ": the literal string
"Requires Port Augmentation & Requires Port Augmentation". -/
theorem double_augmentation_verdict (geD ge1g tenD ge10g : ℚ)
    (h1 : 1 ≤ geD ∧ ge1g - geD ≤ 2) (h2 : 1 ≤ tenD ∧ ge10g - tenD ≤ 2) :
    get_node_assessment geD ge1g tenD ge10g =
      "Requires Port Augmentation & Requires Port Augmentation" := by
  rw [get_node_assessment_cases, if_pos h1, if_pos h2]

/-- C9 (witness): both checks fire at 1G demand 1 with capacity 0 and
10G demand 1 with capacity 0. -/
theorem double_augmentation_verdict_witness :
    get_node_assessment 1 0 1 0 =
      "Requires Port Augmentation & Requires Port Augmentation" :=
  double_augmentation_verdict 1 0 1 0 (by norm_num) (by norm_num)

/-- C2: the Task 3 join produces exactly one combined row per nomination
row, in nomination order, for every inventory — including an empty one
and keys with zero matches; the i-th output row is the join of the i-th
nomination row and extends that nomination row. -/
theorem join_length_and_order (inv nom : List Row)
    (h : ∀ r ∈ nom, (getField r "PLA ID").isSome) :
    ∃ out, joinNomination inv nom = some out ∧ out.length = nom.length ∧
      ∀ i, i < nom.length →
        some (out.getD i []) = joinRow inv (nom.getD i []) ∧
        ∃ invFields, out.getD i [] = nom.getD i [] ++ invFields := by
  have hs : (mapOpt (joinRow inv) nom).isSome := by
    apply mapOpt_isSome
    intro r hr
    obtain ⟨v, hv⟩ := Option.isSome_iff_exists.mp (h r hr)
    simp [joinRow, hv]
  obtain ⟨out, hout⟩ := Option.isSome_iff_exists.mp hs
  obtain ⟨hlen, hcorr⟩ := mapOpt_some_getD (joinRow inv) [] [] nom out hout
  refine ⟨out, hout, hlen, ?_⟩
  intro i hi
  refine ⟨hcorr i hi, ?_⟩
  obtain ⟨v, hv⟩ :=
    Option.isSome_iff_exists.mp (h (nom.getD i []) (getD_mem_of_lt nom i [] hi))
  refine ⟨prefixed ((invMatches inv v).headD []), ?_⟩
  have hc := hcorr i hi
  simp only [joinRow, hv] at hc
  exact Option.some_injective _ hc

/-- C2 (witness): the empty inventory against a one-row nomination
table — the join succeeds with exactly one output row extending the
nomination row. -/
theorem join_length_and_order_witness :
    ∃ out, joinNomination [] nomW = some out ∧ out.length = nomW.length ∧
      ∀ i, i < nomW.length →
        some (out.getD i []) = joinRow [] (nomW.getD i []) ∧
        ∃ invFields, out.getD i [] = nomW.getD i [] ++ invFields :=
  join_length_and_order [] nomW (by
    intro r hr
    have he : r = [("PLA ID", Val.vstr "7")] := by simpa [nomW] using hr
    subst he
    rfl)

/-- C6 (counterexample): with two inventory matches for PLA ID "100"
(Transport NE "A" first, "B" second), the join succeeds with "A"'s
fields: an externally chosen Transport NE "B" is not honoured and no
"disambiguation choice not found" failure can occur — the Task 3 loop
takes no disambiguation input at all. -/
theorem join_choice_not_honoured_cex :
    joinRow [invA, invB] nomR = some (nomR ++ prefixed invA) ∧
    getField (nomR ++ prefixed invA) "Inv_Transport NE" = some (Val.vstr "A") ∧
    Val.vstr "A" ≠ Val.vstr "B" := by
  refine ⟨rfl, rfl, ?_⟩
  decide

/-- C6 (amended): the join takes no disambiguation choices: whenever the
nomination key is present it succeeds, selecting the first match in the
inventory's native order (and no inventory fields when there is no
match), regardless of how many matches exist. -/
theorem join_ignores_choices_first_match (inv : List Row) (nomRow : Row) (plaId : Val)
    (hpla : getField nomRow "PLA ID" = some plaId) :
    (joinRow inv nomRow).isSome ∧
    joinRow inv nomRow = some (nomRow ++ prefixed ((invMatches inv plaId).headD [])) := by
  constructor <;> simp [joinRow, hpla]

/-- C6 (amended, witness): at the ambiguous input with matches "A" and
"B" the join succeeds with the first match. -/
theorem join_ignores_choices_first_match_witness :
    (joinRow [invA, invB] nomR).isSome ∧
    joinRow [invA, invB] nomR =
      some (nomR ++ prefixed ((invMatches [invA, invB] (Val.vstr "100")).headD [])) :=
  join_ignores_choices_first_match [invA, invB] nomR (Val.vstr "100") rfl

/-- Closed form of get_loop_assessment with the threshold written as the
fraction 7/10. -/
theorem get_loop_assessment_cases (u : ℚ) :
    get_loop_assessment u =
      if 7 / 10 ≤ u then "Requires Loop Upgrade" else "With Headroom" := by
  unfold get_loop_assessment
  rw [mkRat_seven_tenths]

/-- C8: the loop verdict is "Requires Loop Upgrade" exactly when the
normalized utilization is at least 7/10 and "With Headroom" exactly when
it is below; exactly 7/10 yields the upgrade verdict and 699999/1000000
yields headroom. -/
theorem loop_assessment_threshold :
    (∀ u : ℚ, get_loop_assessment u = "Requires Loop Upgrade" ↔ 7 / 10 ≤ u) ∧
    (∀ u : ℚ, get_loop_assessment u = "With Headroom" ↔ u < 7 / 10) ∧
    get_loop_assessment (7 / 10) = "Requires Loop Upgrade" ∧
    get_loop_assessment (699999 / 1000000) = "With Headroom" := by
  refine ⟨?_, ?_, ?_, ?_⟩
  · intro u
    rw [get_loop_assessment_cases]
    by_cases h : 7 / 10 ≤ u
    · rw [if_pos h]
      exact iff_of_true rfl h
    · rw [if_neg h]
      exact iff_of_false (by decide) h
  · intro u
    rw [get_loop_assessment_cases]
    by_cases h : 7 / 10 ≤ u
    · rw [if_pos h]
      exact iff_of_false (by decide) (not_lt.mpr h)
    · rw [if_neg h]
      exact iff_of_true rfl (lt_of_not_le h)
  · rw [get_loop_assessment_cases, if_pos le_rfl]
  · rw [get_loop_assessment_cases, if_neg (by norm_num)]

/-- C4 (counterexample): a frame whose loop-utilization column holds the
unparseable text "abc" makes the whole assessment fail — the textual
branch's astype(float) raises — instead of normalizing the cell to 0. -/
theorem normalization_raises_on_unparseable_text :
    run_assessment dfBad = none ∧ pctTransform (Val.vstr "abc") = none :=
  ⟨rfl, rfl⟩

/-- C4 (amended): the designated general numeric fields normalize
totally, every cell becoming a number with NaN and unparseable text
becoming 0; the textual loop-utilization branch strips '%' and divides
by 100 ("70%" and the percent-less "70" both become 7/10, "0%" becomes
0), but an unparseable string raises and aborts the task instead of
defaulting to 0, a numeric cell caught in a textual column collapses to
NaN and then 0, and a loop column holding no string at all is left
unscaled. -/
theorem normalization_behaviour :
    (∀ v : Val, ∃ q : ℚ, fillna0 (to_numeric_coerce v) = Val.vnum q) ∧
    pctTransform (Val.vstr "70%") = some (Val.vnum (7 / 10)) ∧
    pctTransform (Val.vstr "0%") = some (Val.vnum 0) ∧
    pctTransform (Val.vstr "70") = some (Val.vnum (7 / 10)) ∧
    pctTransform (Val.vstr "abc") = none ∧
    (∀ q : ℚ, pctTransform (Val.vnum q) = some Val.vnan) ∧
    (∀ r : Row, normalizeLoopRow false r = some r) ∧
    getField (((run_assessment df70).getD []).getD 0 []) loopCol = some (Val.vnum (7 / 10)) ∧
    getField (((run_assessment dfNum).getD []).getD 0 []) loopCol = some (Val.vnum (mkRat 1 2)) ∧
    getField (((run_assessment dfJunk).getD []).getD 0 []) "GE Port Demand" = some (Val.vnum 0) ∧
    getField (((run_assessment dfMix).getD []).getD 1 []) loopCol = some (Val.vnum 0) := by
  refine ⟨?_, by rw [mkRat_seven_tenths]; rfl, rfl, by rw [mkRat_seven_tenths]; rfl, rfl,
    fun q => rfl, fun r => rfl, by rw [mkRat_seven_tenths]; rfl, rfl, rfl, rfl⟩
  intro v
  cases v with
  | vnum q => exact ⟨q, rfl⟩
  | vnan => exact ⟨0, rfl⟩
  | vstr s =>
    cases hp : parseFloat? s with
    | some q => exact ⟨q, by simp [to_numeric_coerce, hp, fillna0]⟩
    | none => exact ⟨0, by simp [to_numeric_coerce, hp, fillna0]⟩

/-- C10: the Task 4 assessment preserves the number of rows, appends the
two verdict columns "Node Assessment" and "Loop Assessment" to every
row, and leaves every column other than the five designated numeric ones
and the two appended verdicts exactly as it was after the join.  The
program runs on a .copy() of the stored Step 3 table, which the
embedding reflects by run_assessment being a pure function: its input
frame is not changed. -/
theorem run_assessment_frame (df out : List Row) (h : run_assessment df = some out) :
    out.length = df.length ∧
    ∀ i, i < df.length →
      (∀ k, k ∉ numeric_cols → k ≠ "Node Assessment" → k ≠ "Loop Assessment" →
        getField (out.getD i []) k = getField (df.getD i []) k) ∧
      (getField (out.getD i []) "Node Assessment").isSome ∧
      (getField (out.getD i []) "Loop Assessment").isSome := by
  unfold run_assessment at h
  by_cases hcond : numeric_cols.all (fun c => df.any (fun r => (getField r c).isSome))
  case neg => rw [if_neg hcond] at h; exact absurd h (by simp)
  case pos =>
  rw [if_pos hcond] at h
  cases hm : mapOpt (normalizeLoopRow (isObjectDtype (getCol df loopCol))) df with
  | none => rw [hm] at h; exact absurd h (by simp)
  | some df1 =>
    rw [hm] at h
    obtain rfl : (df1.map normNumRow).map addAssessments = out := by injection h
    obtain ⟨hlen, hcorr⟩ := mapOpt_some_getD _ ([] : Row) ([] : Row) df df1 hm
    constructor
    · simp [hlen]
    · intro i hi
      have hi1 : i < df1.length := by rw [hlen]; exact hi
      have hi2 : i < (df1.map normNumRow).length := by simpa using hi1
      have hout : ((df1.map normNumRow).map addAssessments).getD i [] =
          addAssessments (normNumRow (df1.getD i [])) := by
        rw [getD_map_lt addAssessments _ i [] [] hi2, getD_map_lt normNumRow _ i [] [] hi1]
      have hd1 : normalizeLoopRow (isObjectDtype (getCol df loopCol)) (df.getD i []) =
          some (df1.getD i []) := (hcorr i hi).symm
      refine ⟨?_, ?_, ?_⟩
      · intro k hk hn hl
        rw [hout, addAssessments_frame _ _ hn hl]
        have hkloop : k ≠ loopCol := by
          intro e
          apply hk
          rw [e]
          decide
        rw [show normNumRow (df1.getD i []) = numeric_cols.foldl normStep (df1.getD i [])
          from rfl]
        rw [foldl_normStep_frame _ _ _ hk]
        exact normalizeLoopRow_frame _ _ _ hd1 k hkloop
      · rw [hout]; exact addAssessments_has_node _
      · rw [hout]; exact addAssessments_has_loop _

/-- C10 (witness): a one-row frame with numeric designated columns and a
passthrough "Extra" column — the assessment succeeds, keeps the "PLA ID"
and "Extra" fields, and appends the verdict columns. -/
theorem run_assessment_frame_witness :
    (run_assessment dfW).isSome ∧
    getField (((run_assessment dfW).getD []).getD 0 []) "PLA ID" = some (Val.vstr "1") ∧
    getField (((run_assessment dfW).getD []).getD 0 []) "Extra" = some (Val.vstr "x") ∧
    (getField (((run_assessment dfW).getD []).getD 0 []) "Node Assessment").isSome := by
  have h : run_assessment dfW = some ((run_assessment dfW).getD []) := rfl
  obtain ⟨hlen, hrow⟩ := run_assessment_frame dfW ((run_assessment dfW).getD []) h
  obtain ⟨hframe, hnode, hloop⟩ := hrow 0 (by decide)
  refine ⟨by rw [h]; rfl, ?_, ?_, hnode⟩
  · rw [hframe "PLA ID" (by decide) (by decide) (by decide)]
    rfl
  · rw [hframe "Extra" (by decide) (by decide) (by decide)]
    rfl

end AutomatedAssessment
